import Mathlib

/-!
Verification of the session/profile revalidation controller implemented by the
`useProfile` hook (frontend, richer variant with heartbeat, visibility and
broadcast triggers).  The hook's mutable state is `user` (the cached profile),
`loading` (the initial-load flag) and `fetchingRef` (the single-flight guard).
Its `fetchUser` body is an async function with exactly one suspension point
(the `await getProfile()`); we embed it as two synchronous segments,
`fetchUserStart` (everything up to and including the call to `getProfile`) and
`fetchUserResume` (the try/catch/finally continuation that runs when the
promise settles).  Triggers, promise resolutions and sign-out settlements are
interleaved by an explicit event-step semantics `step` / `runEvents`, which
also counts the calls made to the `getProfile` collaborator.
-/

/-- The opaque profile record returned by `getProfile` (named `AuthUser` in the
source; the spec calls it `ProfileData`).  The controller never inspects its
fields, so a single identity attribute suffices for the embedding. -/
structure AuthUser where
  id : String
deriving DecidableEq, Repr

/-- The mutable state owned by one `useProfile` hook instance:
`user` (`useState<AuthUser | null>(null)`), `loading` (`useState(true)`) and
`fetching` (`useRef(false)`, the single-flight guard `fetchingRef`). -/
structure HookState where
  user : Option AuthUser
  loading : Bool
  fetching : Bool
deriving DecidableEq, Repr

/-- Initial hook state: `useState<AuthUser | null>(null)`, `useState(true)`,
`useRef(false)`. -/
def initState : HookState :=
  { user := none, loading := true, fetching := false }

/-- The spec's three-valued snapshot, derived from the hook state exactly as
the presentation layer reads it: `Loading` while the `loading` flag is set,
otherwise `Authenticated` or `Unauthenticated` according to `user`. -/
inductive Snapshot where
  | Loading : Snapshot
  | Authenticated : AuthUser → Snapshot
  | Unauthenticated : Snapshot
deriving DecidableEq, Repr

/-- Snapshot derivation from the hook state. -/
def snapshot (s : HookState) : Snapshot :=
  if s.loading then .Loading
  else
    match s.user with
    | some u => .Authenticated u
    | none => .Unauthenticated

/-- Outcome of the synchronous prefix of `fetchUser` (up to the `await`):
either the call is dropped by the guard, or it completes synchronously on the
presence short-circuit, or it suspends awaiting `getProfile` (having set the
guard). -/
inductive StartOutcome where
  | dropped : StartOutcome
  | shortCircuit : HookState → StartOutcome
  | suspended : HookState → StartOutcome
deriving DecidableEq, Repr

/-- Synchronous prefix of `fetchUser`, with `auth` the value returned by the
`isAuthenticated()` collaborator at this instant:

```
if (fetchingRef.current) return;
if (!isAuthenticated()) { setUser(null); setLoading(false); return; }
fetchingRef.current = true;
const data = await getProfile();   -- suspends here
```
-/
def fetchUserStart (auth : Bool) (s : HookState) : StartOutcome :=
  if s.fetching then .dropped
  else if !auth then .shortCircuit { s with user := none, loading := false }
  else .suspended { s with fetching := true }

/-- Continuation of `fetchUser` once the `getProfile()` promise settles with
result `r` (`Except.ok` for a resolution, `Except.error` for a rejection):

```
try { const data = await getProfile(); setUser(data); }
catch { setUser(null); }
finally { setLoading(false); fetchingRef.current = false; }
```
-/
def fetchUserResume (r : Except Unit AuthUser) (_s : HookState) : HookState :=
  match r with
  | .ok data => { user := some data, loading := false, fetching := false }
  | .error _ => { user := none, loading := false, fetching := false }

/-- Settlement of `signOut = () => logout().finally(() => setUser(null))`:
when the `logout()` promise settles with result `r`, the `finally` callback
runs `setUser(null)`, and the promise returned by `.finally` settles the same
way `logout()` did (a `finally` callback that does not throw re-propagates the
original settlement; it does not swallow a rejection).  The returned pair is
(state after the callback, settlement of the promise `signOut()` returned). -/
def signOut (r : Except Unit Unit) (s : HookState) : HookState × Except Unit Unit :=
  ({ s with user := none }, r)

deriving instance DecidableEq for Except

/-- Events interleaved on the hook's single logical thread.  `trigger` is any
of the mount / visibility / broadcast firings (each calls `fetchUser()`
directly); `heartbeat` is an interval tick (whose handler is
`if (isAuthenticated()) fetchUser()`); `resolve` is the in-flight
`getProfile()` promise settling; `signOutSettle` is a `logout()` promise
settling inside `signOut`.  `trigger` and `heartbeat` carry the value
`isAuthenticated()` returns at that instant. -/
inductive Ev where
  | trigger : Bool → Ev
  | heartbeat : Bool → Ev
  | resolve : Except Unit AuthUser → Ev
  | signOutSettle : Except Unit Unit → Ev
deriving DecidableEq, Repr

/-- Effect of one `fetchUser()` invocation's synchronous prefix on the state,
together with the number of `getProfile` calls it makes (1 exactly when it
suspends, since `getProfile()` is called at the `await`). -/
def triggerStep (auth : Bool) (s : HookState) : HookState × Nat :=
  match fetchUserStart auth s with
  | .dropped => (s, 0)
  | .shortCircuit s₁ => (s₁, 0)
  | .suspended s₁ => (s₁, 1)

/-- One event step: resulting state and number of `getProfile` calls made. -/
def step (e : Ev) (s : HookState) : HookState × Nat :=
  match e with
  | .trigger auth => triggerStep auth s
  | .heartbeat auth => if auth then triggerStep auth s else (s, 0)
  | .resolve r => (fetchUserResume r s, 0)
  | .signOutSettle r => ((signOut r s).1, 0)

/-- Run a list of events from a state, accumulating the `getProfile` call
count. -/
def runEvents (s : HookState) : List Ev → HookState × Nat
  | [] => (s, 0)
  | e :: es =>
    let p := step e s
    let q := runEvents p.1 es
    (q.1, p.2 + q.2)

/-- The fixed heartbeat period: `setInterval(..., 10 * 60 * 1000)`. -/
def heartbeatPeriodMs : Nat := 10 * 60 * 1000

/-- The set of live listeners registered by the hook's effects: the
`visibilitychange` document listener, the `auth:tokens-updated` window
listener, and the `setInterval` heartbeat handle. -/
structure Listeners where
  visibility : Bool
  broadcast : Bool
  heartbeat : Bool
deriving DecidableEq, Repr

/-- Before any activation no listener is registered. -/
def initListeners : Listeners :=
  { visibility := false, broadcast := false, heartbeat := false }

/-- `activate`: mounting the hook runs the three registering effects
(`addEventListener` twice and `setInterval`). -/
def activate (_l : Listeners) : Listeners :=
  { visibility := true, broadcast := true, heartbeat := true }

/-- `deactivate`: unmounting runs every effect's cleanup
(`removeEventListener` twice and `clearInterval`).  Each of those host calls
is a no-op when the listener is already absent, so the result is all-clear
from any starting set. -/
def deactivate (_l : Listeners) : Listeners :=
  { visibility := false, broadcast := false, heartbeat := false }

/-- Number of live listeners. -/
def Listeners.live (l : Listeners) : Nat :=
  (if l.visibility then 1 else 0) + (if l.broadcast then 1 else 0) +
    (if l.heartbeat then 1 else 0)

/-- Full controller state: hook state plus registered listeners.  `activate`
and `deactivate` act on the listener component only; the firings they enable
are separate `Ev` events. -/
def ControllerState := HookState × Listeners

/-- Lifted activation: registers listeners, does not touch the hook state. -/
def activateC (c : ControllerState) : ControllerState :=
  (c.1, activate c.2)

/-- Lifted deactivation: removes listeners, does not touch the hook state. -/
def deactivateC (c : ControllerState) : ControllerState :=
  (c.1, deactivate c.2)

/-- An event is a reconcile attempt that completes in this very step: either a
presence short-circuit taken by a non-dropped `fetchUser` invocation, or the
settlement of the in-flight `getProfile` promise. -/
def completesReconcile (e : Ev) (s : HookState) : Bool :=
  match e with
  | .trigger auth => !s.fetching && !auth
  | .heartbeat _ => false
  | .resolve _ => true
  | .signOutSettle _ => false

/-! ## Helper lemmas -/

/-- A `fetchUser` invocation arriving while the guard is set is dropped: the
state is unchanged and no collaborator call is made. -/
theorem triggerStep_fetching (auth : Bool) (s : HookState) (h : s.fetching = true) :
    triggerStep auth s = (s, 0) := by
  simp [triggerStep, fetchUserStart, h]

/-- Any run of trigger firings from a state with the guard set is entirely
dropped. -/
theorem runEvents_trigger_fetching (n : Nat) (s : HookState) (h : s.fetching = true) :
    runEvents s (List.replicate n (Ev.trigger true)) = (s, 0) := by
  induction n with
  | zero => simp [runEvents]
  | succ m ih =>
    simp [List.replicate_succ, runEvents, step, triggerStep_fetching true s h, ih]

/-- No event step turns the `loading` flag back on. -/
theorem step_loading_mono (e : Ev) (s : HookState) (h : s.loading = false) :
    (step e s).1.loading = false := by
  cases e with
  | trigger a =>
    cases hfs : s.fetching <;> cases a <;>
      simp [step, triggerStep, fetchUserStart, hfs, h]
  | heartbeat a =>
    cases hfs : s.fetching <;> cases a <;>
      simp [step, triggerStep, fetchUserStart, hfs, h]
  | resolve r => cases r <;> simp [step, fetchUserResume]
  | signOutSettle r => simp [step, signOut, h]

/-- Once the `loading` flag is off, no sequence of events turns it back on. -/
theorem runEvents_loading_mono (es : List Ev) (s : HookState) (h : s.loading = false) :
    (runEvents s es).1.loading = false := by
  induction es generalizing s with
  | nil => simpa [runEvents] using h
  | cons e es ih =>
    simp only [runEvents]
    exact ih (step e s).1 (step_loading_mono e s h)

/-- With the `loading` flag off, the derived snapshot is never `Loading`. -/
theorem snapshot_ne_loading (s : HookState) (h : s.loading = false) :
    snapshot s ≠ Snapshot.Loading := by
  cases hu : s.user <;> simp [snapshot, h, hu]

/-! ## Claims -/

/-- C1: single-flight guard.  From any state in which no fetch is in flight, a
burst of n ≥ 1 trigger firings with no intervening promise resolution makes
exactly one call to the `getProfile` collaborator; moreover any trigger firing
that arrives while the guard is set is a pure no-op drop (state unchanged,
zero collaborator calls). -/
theorem C1_single_flight (s : HookState) (n : Nat) (a : Bool)
    (hf : s.fetching = false) (hn : 1 ≤ n) :
    (runEvents s (List.replicate n (Ev.trigger true))).2 = 1 ∧
    step (Ev.trigger a) { s with fetching := true } = ({ s with fetching := true }, 0) := by
  constructor
  · cases n with
    | zero => omega
    | succ m =>
      have hstep : step (Ev.trigger true) s = ({ s with fetching := true }, 1) := by
        simp [step, triggerStep, fetchUserStart, hf]
      have hrest :
          runEvents { s with fetching := true } (List.replicate m (Ev.trigger true)) =
            ({ s with fetching := true }, 0) :=
        runEvents_trigger_fetching m _ rfl
      simp [List.replicate_succ, runEvents, hstep, hrest]
  · simpa [step] using triggerStep_fetching a { s with fetching := true } rfl

/-- C1 witness: three back-to-back triggers from the initial state make exactly
one collaborator call. -/
theorem C1_single_flight_witness :
    (runEvents initState (List.replicate 3 (Ev.trigger true))).2 = 1 ∧
    step (Ev.trigger true) { initState with fetching := true } =
      ({ initState with fetching := true }, 0) :=
  C1_single_flight initState 3 true rfl (by decide)

/-- C2: outcome mapping.  For a `fetchUser` invocation that passed the guard
with a credential present (hence suspended awaiting `getProfile`), a
resolution with profile data d lands the snapshot in `Authenticated d` holding
exactly that value, and a rejection lands it in `Unauthenticated`. -/
theorem C2_outcome_mapping (s s₁ : HookState) (d : AuthUser) (e : Unit)
    (_h : fetchUserStart true s = .suspended s₁) :
    (fetchUserResume (Except.ok d) s₁).user = some d ∧
    snapshot (fetchUserResume (Except.ok d) s₁) = Snapshot.Authenticated d ∧
    snapshot (fetchUserResume (Except.error e) s₁) = Snapshot.Unauthenticated := by
  refine ⟨rfl, ?_, ?_⟩ <;> simp [fetchUserResume, snapshot]

/-- C2 witness at the initial state with profile data id "u1". -/
theorem C2_outcome_mapping_witness :
    (fetchUserResume (Except.ok ⟨"u1"⟩) { initState with fetching := true }).user =
      some ⟨"u1"⟩ ∧
    snapshot (fetchUserResume (Except.ok ⟨"u1"⟩) { initState with fetching := true }) =
      Snapshot.Authenticated ⟨"u1"⟩ ∧
    snapshot (fetchUserResume (Except.error ()) { initState with fetching := true }) =
      Snapshot.Unauthenticated :=
  C2_outcome_mapping initState { initState with fetching := true } ⟨"u1"⟩ () (by decide)

/-- C3: presence short-circuit.  A `fetchUser` invocation that is not dropped
by the guard and finds `isAuthenticated()` false makes zero collaborator
calls, lands the snapshot in `Unauthenticated` synchronously, and never sets
the guard (the `fetching` field of the resulting state is still the old,
false, value). -/
theorem C3_presence_short_circuit (s : HookState) (h : s.fetching = false) :
    triggerStep false s = ({ s with user := none, loading := false }, 0) ∧
    ({ s with user := none, loading := false } : HookState).fetching = false ∧
    snapshot { s with user := none, loading := false } = Snapshot.Unauthenticated := by
  refine ⟨?_, ?_, ?_⟩
  · simp [triggerStep, fetchUserStart, h]
  · simpa using h
  · simp [snapshot]

/-- C3 witness at the initial state. -/
theorem C3_presence_short_circuit_witness :
    triggerStep false initState = ({ initState with user := none, loading := false }, 0) ∧
    ({ initState with user := none, loading := false } : HookState).fetching = false ∧
    snapshot { initState with user := none, loading := false } = Snapshot.Unauthenticated :=
  C3_presence_short_circuit initState rfl

/-- C4: completion postcondition.  Every non-dropped `fetchUser` invocation
terminates with the guard and the loading flag both cleared, on the presence
short-circuit path and on both settlement paths of the fetch, so the snapshot
is never left in `Loading` when the invocation completes. -/
theorem C4_completion_postcondition (auth : Bool) (s s' : HookState)
    (r : Except Unit AuthUser) (h : fetchUserStart auth s = .shortCircuit s') :
    (s'.fetching = false ∧ s'.loading = false ∧ snapshot s' ≠ Snapshot.Loading) ∧
    ((fetchUserResume r s).fetching = false ∧ (fetchUserResume r s).loading = false ∧
      snapshot (fetchUserResume r s) ≠ Snapshot.Loading) := by
  constructor
  · cases hfs : s.fetching <;> cases auth <;> simp [fetchUserStart, hfs] at h
    all_goals subst h
    all_goals exact ⟨rfl, rfl, by decide⟩
  · cases r <;> simp [fetchUserResume, snapshot]

/-- C4 witness: a presence-negative short-circuit from the initial state and a
rejected fetch both end with guard and loading cleared. -/
theorem C4_completion_postcondition_witness :
    ((({ initState with user := none, loading := false } : HookState).fetching = false) ∧
      (({ initState with user := none, loading := false } : HookState).loading = false) ∧
      snapshot { initState with user := none, loading := false } ≠ Snapshot.Loading) ∧
    ((fetchUserResume (Except.error ()) initState).fetching = false ∧
      (fetchUserResume (Except.error ()) initState).loading = false ∧
      snapshot (fetchUserResume (Except.error ()) initState) ≠ Snapshot.Loading) :=
  C4_completion_postcondition false initState
    { initState with user := none, loading := false } (Except.error ()) (by decide)

/-- A state in which the snapshot is `Authenticated` with id "u1", no load and
no fetch in flight (the state reached by Scenario A of the spec). -/
def sAuthU1 : HookState :=
  { user := some ⟨"u1"⟩, loading := false, fetching := false }

/-- C5 counterexample: in the source the heartbeat handler is
`if (isAuthenticated()) { fetchUser(); }`, so a tick at which the presence
check reports no credential bypasses `reconcile()` altogether: from an
authenticated state the tick changes nothing — in particular the snapshot
stays `Authenticated` and does not become `Unauthenticated`, contrary to the
claim that `reconcile()` still runs and short-circuits. -/
theorem C5_heartbeat_counterexample :
    step (Ev.heartbeat false) sAuthU1 = (sAuthU1, 0) ∧
    snapshot sAuthU1 = Snapshot.Authenticated ⟨"u1"⟩ ∧
    snapshot (step (Ev.heartbeat false) sAuthU1).1 ≠ Snapshot.Unauthenticated := by
  refine ⟨rfl, rfl, ?_⟩
  intro hc
  simp [step, sAuthU1, snapshot] at hc

/-- C5 amended: the heartbeat fires on a fixed 10-minute period; a tick at
which the presence check reports a credential invokes `reconcile()` (the same
`fetchUser` entry point as every other trigger), while a tick with no
credential does not invoke `reconcile()` at all and leaves the state unchanged
with zero collaborator calls. -/
theorem C5_heartbeat_amended (s : HookState) :
    heartbeatPeriodMs = 600000 ∧
    step (Ev.heartbeat true) s = triggerStep true s ∧
    step (Ev.heartbeat false) s = (s, 0) :=
  ⟨rfl, rfl, rfl⟩

/-- C6 counterexample: a `signOut` settling during the initial-load window —
concretely, from the state at mount, whose loading flag is still set — leaves
the snapshot `Loading`, not `Unauthenticated`: the `finally` callback clears
the cached user but nothing in `signOut` ever clears the loading flag (only
`fetchUser`'s own `finally` does), so the claim that every `signOut()` call
lands the snapshot in `Unauthenticated` once the collaborator settles is
false at this input. -/
theorem C6_sign_out_counterexample :
    snapshot (signOut (Except.error ()) initState).1 = Snapshot.Loading ∧
    snapshot (signOut (Except.error ()) initState).1 ≠ Snapshot.Unauthenticated := by
  refine ⟨rfl, ?_⟩
  decide

/-- C6 amended: whatever way the `logout()` promise settles, its `finally`
callback clears the cached user; the snapshot at settle time is therefore
`Unauthenticated` exactly when the initial load has completed (loading flag
off), and still `Loading` when the sign-out settles during the initial-load
window. -/
theorem C6_sign_out_amended (s : HookState) (r : Except Unit Unit) :
    (signOut r s).1.user = none ∧
    snapshot (signOut r s).1 =
      (if s.loading then Snapshot.Loading else Snapshot.Unauthenticated) := by
  refine ⟨rfl, ?_⟩
  cases h : s.loading <;> simp [signOut, snapshot, h]

/-- C7 counterexample: `signOut` is `() => logout().finally(() => setUser(null))`,
and a `finally` whose callback does not throw re-propagates the original
settlement; so when `logout()` rejects, the promise `signOut()` returns
settles with that same rejection — it is not swallowed, contradicting the
claim that the value `signOut()` returns does not propagate the rejection. -/
theorem C7_swallow_counterexample :
    (signOut (Except.error ()) initState).2 = Except.error () ∧
    ¬ (∃ u : Unit, (signOut (Except.error ()) initState).2 = Except.ok u) := by
  refine ⟨rfl, ?_⟩
  rintro ⟨u, hu⟩
  simp [signOut] at hu

/-- C7 amended: when the logout collaborator fails, the cached user is still
cleared (this component renders no error), but the promise `signOut()` returns
settles exactly as `logout()` did, so a rejection is propagated to the caller
rather than swallowed. -/
theorem C7_swallow_amended (s : HookState) (r : Except Unit Unit) :
    (signOut r s).1.user = none ∧ (signOut r s).2 = r :=
  ⟨rfl, rfl⟩

/-- C8: snapshot transition invariant.  If an event step changes the derived
snapshot, that event was a reconcile attempt completing in this step (a
presence short-circuit or the settlement of the in-flight fetch) or a
sign-out settling; a guard-dropped trigger is a strict no-op, a heartbeat
tick with no credential is a strict no-op, and activation/deactivation touch
only the listener set, never the hook state. -/
theorem C8_transition_invariant (e : Ev) (s : HookState) (l : Listeners) (a : Bool)
    (h : snapshot (step e s).1 ≠ snapshot s) :
    (completesReconcile e s = true ∨ ∃ r, e = Ev.signOutSettle r) ∧
    step (Ev.trigger a) { s with fetching := true } = ({ s with fetching := true }, 0) ∧
    step (Ev.heartbeat false) s = (s, 0) ∧
    (activateC (s, l)).1 = s ∧
    (deactivateC (s, l)).1 = s := by
  refine ⟨?_, ?_, rfl, rfl, rfl⟩
  · cases e with
    | trigger b =>
      cases hfs : s.fetching with
      | true =>
        exfalso
        apply h
        simp [step, triggerStep_fetching b s hfs]
      | false =>
        cases b with
        | true =>
          exfalso
          apply h
          simp [step, triggerStep, fetchUserStart, hfs, snapshot]
        | false => left; simp [completesReconcile, hfs]
    | heartbeat b =>
      cases b with
      | true =>
        exfalso
        apply h
        cases hfs : s.fetching with
        | true => simp [step, triggerStep_fetching true s hfs]
        | false => simp [step, triggerStep, fetchUserStart, hfs, snapshot]
      | false =>
        exfalso
        apply h
        simp [step]
    | resolve r => left; rfl
    | signOutSettle r => right; exact ⟨r, rfl⟩
  · simpa [step] using triggerStep_fetching a { s with fetching := true } rfl

/-- C8 witness: the resolution of a rejected fetch from the initial state
changes the snapshot (Loading to Unauthenticated) and is indeed a completed
reconcile attempt. -/
theorem C8_transition_invariant_witness :
    (completesReconcile (Ev.resolve (Except.error ())) initState = true ∨
      ∃ r, Ev.resolve (Except.error ()) = Ev.signOutSettle r) ∧
    step (Ev.trigger true) { initState with fetching := true } =
      ({ initState with fetching := true }, 0) ∧
    step (Ev.heartbeat false) initState = (initState, 0) ∧
    (activateC (initState, initListeners)).1 = initState ∧
    (deactivateC (initState, initListeners)).1 = initState :=
  C8_transition_invariant (Ev.resolve (Except.error ())) initState initListeners true
    (by decide)

/-- C9: idempotent teardown.  Running the effect cleanups is total and
idempotent: a second deactivation changes nothing, deactivating with no prior
activation is a no-op on the empty listener set, and after any
activate/deactivate pair zero listeners are live. -/
theorem C9_idempotent_teardown (l : Listeners) :
    deactivate (deactivate l) = deactivate l ∧
    (deactivate l).live = 0 ∧
    deactivate initListeners = initListeners ∧
    (deactivate (activate l)).live = 0 :=
  ⟨rfl, rfl, rfl, rfl⟩

/-- C10: the loading flag is monotone.  It is initialised to true; no event
(trigger on any path, fetch settlement, heartbeat tick, sign-out settlement)
ever sets it back to true once it is false; hence from any state past the
first completed reconcile, no sequence of events can make the snapshot
`Loading` again. -/
theorem C10_loading_monotone (e : Ev) (s : HookState) (es : List Ev)
    (h : s.loading = false) :
    initState.loading = true ∧
    (step e s).1.loading = false ∧
    (runEvents s es).1.loading = false ∧
    snapshot (runEvents s es).1 ≠ Snapshot.Loading := by
  have hrun := runEvents_loading_mono es s h
  exact ⟨rfl, step_loading_mono e s h, hrun, snapshot_ne_loading _ hrun⟩

/-- C10 witness: from the state reached by a completed first reconcile, a
further trigger, and a full trigger/resolve cycle, the loading flag stays off
and the snapshot is not Loading. -/
theorem C10_loading_monotone_witness :
    initState.loading = true ∧
    (step (Ev.trigger true)
        { user := none, loading := false, fetching := false }).1.loading = false ∧
    (runEvents { user := none, loading := false, fetching := false }
        [Ev.trigger true, Ev.resolve (Except.ok ⟨"u2"⟩)]).1.loading = false ∧
    snapshot (runEvents { user := none, loading := false, fetching := false }
        [Ev.trigger true, Ev.resolve (Except.ok ⟨"u2"⟩)]).1 ≠ Snapshot.Loading :=
  C10_loading_monotone (Ev.trigger true)
    { user := none, loading := false, fetching := false }
    [Ev.trigger true, Ev.resolve (Except.ok ⟨"u2"⟩)] rfl
